import Mathlib

/-!
Shallow embedding of the ShadowMesh simple discovery server
(`scripts/simple-discovery.py`): an in-memory peer registry with
registration, lookup, full listing with lazy eviction, and stats.

Timestamps are modelled as integers (seconds).  The registry, a Python
dict keyed by `peer_id`, is modelled as an association list in which the
key of each entry is the peer id; dict assignment replaces the entry for
an existing key in place and appends a fresh key at the end.
-/

set_option autoImplicit false

namespace ShadowMesh

/-- One entry of the registry: `{peer_id, ip, port, is_public, last_seen,
registered_at}` as built in `do_POST` for `/register`. -/
structure PeerRecord where
  peer_id : String
  ip : String
  port : Int
  is_public : Bool
  last_seen : Int
  registered_at : Int
deriving Repr, DecidableEq

/-- The `peers` dict: association list from peer id to record. -/
abbrev Registry := List (String × PeerRecord)

/-- `peers[pid]` / `pid in peers`: first entry whose key is `pid`. -/
def findPeer : Registry → String → Option PeerRecord
  | [], _ => none
  | (k, v) :: rest, pid => if k = pid then some v else findPeer rest pid

/-- `pid in peers`. -/
def containsPeer (reg : Registry) (pid : String) : Bool :=
  (findPeer reg pid).isSome

/-- `peers[pid] = r`: replace the entry for an existing key, append a
fresh key at the end (Python dict assignment). -/
def setPeer : Registry → String → PeerRecord → Registry
  | [], pid, r => [(pid, r)]
  | (k, v) :: rest, pid, r =>
      if k = pid then (pid, r) :: rest else (k, v) :: setPeer rest pid r

/-- Keys are pairwise distinct, as in a Python dict. -/
def uniqueKeys (reg : Registry) : Prop :=
  (reg.map Prod.fst).Nodup

/-- Python truthiness of an optional string: `None` and `""` are falsy. -/
def strTruthy : Option String → Bool
  | none => false
  | some s => !s.isEmpty

/-- The JSON body of a registration request, restricted to the keys the
handler reads: `peer_id`, `ip`, `ip_address`, `port`, `is_public`. -/
structure RegisterInput where
  peer_id : Option String
  ip : Option String
  ip_address : Option String
  port : Option Int
  is_public : Option Bool

/-- `data.get('ip') or data.get('ip_address')`: the `ip` value when it is
truthy, the `ip_address` value otherwise. -/
def resolveIp (d : RegisterInput) : Option String :=
  if strTruthy d.ip then d.ip else d.ip_address

/-- Outcome of the registration handler: HTTP 400 on missing fields, or
success carrying the `is_new` flag (logged as "Registered"/"Updated"). -/
inductive RegisterOutcome where
  | validationError
  | ok (created : Bool)
deriving Repr, DecidableEq

/-- The `/register` handler body (`do_POST`), after JSON decoding: reads
`peer_id`, `ip or ip_address`, `port` (default 8443), `is_public`
(default `false`); rejects falsy `peer_id` or ip with HTTP 400 before any
mutation; otherwise stores the record, keeping `registered_at` of an
existing entry and setting it to `now` for a new one. -/
def register (reg : Registry) (d : RegisterInput) (now : Int) :
    Registry × RegisterOutcome :=
  let ip := resolveIp d
  if !strTruthy d.peer_id || !strTruthy ip then
    (reg, .validationError)
  else
    let pid := d.peer_id.getD ""
    let ipv := ip.getD ""
    let is_new := !containsPeer reg pid
    let reg_at : Int :=
      match findPeer reg pid with
      | some old => old.registered_at
      | none => now
    (setPeer reg pid
      { peer_id := pid
        ip := ipv
        port := d.port.getD 8443
        is_public := d.is_public.getD false
        last_seen := now
        registered_at := reg_at },
     .ok is_new)

/-- One element of the lookup response: `{peer_id, ip_address, port,
is_public}`. -/
structure LookupEntry where
  peer_id : String
  ip_address : String
  port : Int
  is_public : Bool
deriving Repr, DecidableEq

/-- Outcome of the lookup handler: HTTP 400 for a missing `peer_id`
parameter, HTTP 500 when `int(count)` raises, or the matching peers. -/
inductive LookupOutcome where
  | clientError
  | serverError
  | ok (entries : List LookupEntry)
deriving Repr, DecidableEq

/-- The characters Python strips around an `int(s)` literal
(`Py_UNICODE_ISSPACE`): `\t`-`\r`, the C0 separators `\x1c`-`\x1f`,
space, `\x85`, no-break space and the Unicode space separators. -/
def isPySpace (c : Char) : Bool :=
  (9 ≤ c.toNat && c.toNat ≤ 13) || c.toNat = 32 ||
  (28 ≤ c.toNat && c.toNat ≤ 31) || c.toNat = 133 ||
  c.toNat = 160 || c.toNat = 5760 ||
  (8192 ≤ c.toNat && c.toNat ≤ 8202) ||
  c.toNat = 8232 || c.toNat = 8233 || c.toNat = 8239 ||
  c.toNat = 8287 || c.toNat = 12288

/-- Remove the whitespace Python strips from both ends of an `int(s)`
argument. -/
def stripPySpace (cs : List Char) : List Char :=
  ((cs.dropWhile isPySpace).reverse.dropWhile isPySpace).reverse

/-- Continuation of a digit run with underscore grouping: after a first
digit, each further character is a digit or a single underscore that
stands between two digits (`1_0`); a trailing or doubled underscore is
an error. -/
def decGroupRest (acc : Nat) : List Char → Option Nat
  | [] => some acc
  | '_' :: c :: cs =>
      if c.isDigit then decGroupRest (acc * 10 + (c.toNat - 48)) cs
      else none
  | ['_'] => none
  | c :: cs =>
      if c.isDigit then decGroupRest (acc * 10 + (c.toNat - 48)) cs
      else none

/-- A decimal digit run with underscore grouping: one leading digit,
then `decGroupRest`. -/
def decDigits : List Char → Option Nat
  | [] => none
  | c :: cs => if c.isDigit then decGroupRest (c.toNat - 48) cs else none

/-- Model of Python `int(s)` on a string: surrounding whitespace is
stripped, then an optional sign followed by decimal ASCII digits with
underscore grouping yields the integer; anything else raises
`ValueError`, modelled as `none`.  Unicode digit forms are outside the
modelled domain. -/
def pyInt (s : String) : Option Int :=
  match stripPySpace s.data with
  | '-' :: rest => (decDigits rest).map fun n => -(n : Int)
  | '+' :: rest => (decDigits rest).map fun n => (n : Int)
  | cs => (decDigits cs).map fun n => (n : Int)

/-- `int(params.get('count', [10])[0])`: the default 10 when the
parameter is absent, otherwise the integer parse, `none` when `int()`
raises `ValueError`. -/
def parseCount : Option String → Option Int
  | none => some 10
  | some s => pyInt s

/-- The `/api/peers/lookup` handler body (`do_GET`): parses `count`
(HTTP 500 on failure, before the `peer_id` check), rejects a falsy
`peer_id` with HTTP 400, then returns the record for `peer_id` iff it is
present and `now - last_seen < 300`.  The registry is never mutated. -/
def lookup (reg : Registry) (pidParam countParam : Option String)
    (now : Int) : Registry × LookupOutcome :=
  match parseCount countParam with
  | none => (reg, .serverError)
  | some _count =>
    if !strTruthy pidParam then
      (reg, .clientError)
    else
      let pid := pidParam.getD ""
      let entries : List LookupEntry :=
        match findPeer reg pid with
        | some r =>
            if now - r.last_seen < 300 then
              [{ peer_id := r.peer_id
                 ip_address := r.ip
                 port := r.port
                 is_public := r.is_public }]
            else []
        | none => []
      (reg, .ok entries)

/-- The eviction loop of the `/peers` handler: keep each entry with
`now - last_seen < 300`, delete the rest from the dict. -/
def listActivePeers (now : Int) : Registry → Registry
  | [] => []
  | (k, v) :: rest =>
      if now - v.last_seen < 300 then (k, v) :: listActivePeers now rest
      else listActivePeers now rest

/-- The `/peers` response: the active map, its size, and the timestamp
used for the staleness check. -/
structure ListResult where
  peersOut : Registry
  count : Nat
  timestamp : Int
deriving Repr, DecidableEq

/-- The `/peers` handler body (`do_GET`): computes `now` once, evicts
every stale entry from the registry, and returns the remaining active
set with its count and `now`. -/
def listActive (reg : Registry) (now : Int) : Registry × ListResult :=
  let active := listActivePeers now reg
  (active, { peersOut := active, count := active.length, timestamp := now })

/-- The `/stats` response fields. -/
structure Stats where
  total_peers : Nat
  active_peers : Nat
  public_peers : Nat
  private_peers : Nat
  uptime_seconds : Int
deriving Repr, DecidableEq

/-- The `/stats` handler body (`do_GET`): counts all records, the active
ones, the public active ones, derives `private`, and reports uptime.
The registry is never mutated. -/
def stats (reg : Registry) (now server_start_time : Int) :
    Registry × Stats :=
  let active := reg.filter fun kv => now - kv.2.last_seen < 300
  let pub := active.filter fun kv => kv.2.is_public
  (reg,
   { total_peers := reg.length
     active_peers := active.length
     public_peers := pub.length
     private_peers := active.length - pub.length
     uptime_seconds := now - server_start_time })

/-- The staleness predicate the spec names: active iff
`now - last_seen < STALE_TIMEOUT` with `STALE_TIMEOUT = 300`. -/
def isActive (now last_seen : Int) : Bool :=
  now - last_seen < 300

/-! ### Basic lemmas about the registry map -/

theorem findPeer_setPeer_self (reg : Registry) (pid : String)
    (r : PeerRecord) : findPeer (setPeer reg pid r) pid = some r := by
  induction reg with
  | nil => simp [setPeer, findPeer]
  | cons kv rest ih =>
    obtain ⟨k, v⟩ := kv
    by_cases hk : k = pid
    · simp [setPeer, hk, findPeer]
    · simp [setPeer, hk, findPeer, ih]

theorem findPeer_setPeer_other (reg : Registry) (pid other : String)
    (r : PeerRecord) (hne : other ≠ pid) :
    findPeer (setPeer reg pid r) other = findPeer reg other := by
  induction reg with
  | nil => simp [setPeer, findPeer, Ne.symm hne]
  | cons kv rest ih =>
    obtain ⟨k, v⟩ := kv
    by_cases hk : k = pid
    · subst hk
      simp [setPeer, findPeer, Ne.symm hne]
    · simp [setPeer, hk, findPeer, ih]

theorem setPeer_length_of_found (reg : Registry) (pid : String)
    (r : PeerRecord) (h : (findPeer reg pid).isSome) :
    (setPeer reg pid r).length = reg.length := by
  induction reg with
  | nil => simp [findPeer] at h
  | cons kv rest ih =>
    obtain ⟨k, v⟩ := kv
    by_cases hk : k = pid
    · simp [setPeer, hk]
    · simp only [findPeer, hk, if_false] at h
      simp [setPeer, hk, ih h]

theorem setPeer_length_of_none (reg : Registry) (pid : String)
    (r : PeerRecord) (h : findPeer reg pid = none) :
    (setPeer reg pid r).length = reg.length + 1 := by
  induction reg with
  | nil => simp [setPeer]
  | cons kv rest ih =>
    obtain ⟨k, v⟩ := kv
    by_cases hk : k = pid
    · simp [findPeer, hk] at h
    · simp only [findPeer, hk, if_false] at h
      simp [setPeer, hk, ih h]

theorem isEmpty_false_of_ne (s : String) (h : s ≠ "") :
    s.isEmpty = false := by
  rw [Bool.eq_false_iff]
  intro hemp
  exact h ((String.isEmpty_iff s).mp hemp)

theorem strTruthy_some_ne (s : String) (h : s ≠ "") :
    strTruthy (some s) = true := by
  simp [strTruthy, isEmpty_false_of_ne s h]

/-! ### Claim theorems -/

/-- C1: a successful `register` for a present `peer_id` overwrites `ip`,
`port` and `is_public`, sets `last_seen = now`, preserves the original
`registered_at`, reports `created = false` and keeps the record count;
for an absent `peer_id` it inserts a record with
`registered_at = last_seen = now` and reports `created = true`. -/
theorem register_insert_or_update (reg : Registry) (d : RegisterInput)
    (now : Int) (pid ipv : String)
    (hpid : d.peer_id = some pid) (hpidne : pid ≠ "")
    (hip : resolveIp d = some ipv) (hipne : ipv ≠ "") :
    (∀ old, findPeer reg pid = some old →
      register reg d now =
        (setPeer reg pid
          { peer_id := pid, ip := ipv, port := d.port.getD 8443,
            is_public := d.is_public.getD false, last_seen := now,
            registered_at := old.registered_at }, .ok false) ∧
      findPeer (register reg d now).1 pid =
        some { peer_id := pid, ip := ipv, port := d.port.getD 8443,
               is_public := d.is_public.getD false, last_seen := now,
               registered_at := old.registered_at } ∧
      (register reg d now).1.length = reg.length) ∧
    (findPeer reg pid = none →
      (register reg d now).2 = .ok true ∧
      findPeer (register reg d now).1 pid =
        some { peer_id := pid, ip := ipv, port := d.port.getD 8443,
               is_public := d.is_public.getD false, last_seen := now,
               registered_at := now } ∧
      (register reg d now).1.length = reg.length + 1) := by
  have hpt := strTruthy_some_ne pid hpidne
  have hit := strTruthy_some_ne ipv hipne
  constructor
  · intro old hold
    have hcont : containsPeer reg pid = true := by
      simp [containsPeer, hold]
    refine ⟨?_, ?_, ?_⟩
    · simp [register, hpt, hit, hpid, hip, hcont, hold]
    · simp [register, hpt, hit, hpid, hip, hcont, hold,
        findPeer_setPeer_self]
    · simp [register, hpt, hit, hpid, hip, hcont, hold,
        setPeer_length_of_found]
  · intro hnone
    have hcont : containsPeer reg pid = false := by
      simp [containsPeer, hnone]
    refine ⟨?_, ?_, ?_⟩
    · simp [register, hpt, hit, hpid, hip, hcont, hnone]
    · simp [register, hpt, hit, hpid, hip, hcont, hnone,
        findPeer_setPeer_self]
    · simp [register, hpt, hit, hpid, hip, hcont, hnone,
        setPeer_length_of_none]

/-- Witness for C1: updating an existing peer overwrites the address
fields, keeps `registered_at = 5`, and reports `created = false`. -/
theorem register_insert_or_update_witness :
    register [("a", ⟨"a", "1.1.1.1", 80, false, 0, 5⟩)]
        ⟨some "a", some "2.2.2.2", none, some 90, some true⟩ 7 =
      ([("a", ⟨"a", "2.2.2.2", 90, true, 7, 5⟩)], .ok false) := by
  have h := ((register_insert_or_update
      [("a", ⟨"a", "1.1.1.1", 80, false, 0, 5⟩)]
      ⟨some "a", some "2.2.2.2", none, some 90, some true⟩ 7
      "a" "2.2.2.2" rfl (by decide) (by decide) (by decide)).1
      ⟨"a", "1.1.1.1", 80, false, 0, 5⟩ (by decide)).1
  exact h.trans (by decide)

theorem listActivePeers_eq_filter (now : Int) (reg : Registry) :
    listActivePeers now reg =
      reg.filter fun kv => isActive now kv.2.last_seen := by
  induction reg with
  | nil => rfl
  | cons kv rest ih =>
    obtain ⟨k, v⟩ := kv
    by_cases h : now - v.last_seen < 300
    · simp [listActivePeers, h, isActive, ih]
    · simp [listActivePeers, h, isActive, ih]

/-- C2: every staleness check in `lookup`, the full listing and `stats`
treats a record as active iff `now - last_seen < 300`, strictly:
`last_seen = now - 299` is active, `last_seen = now - 300` is stale. -/
theorem staleness_boundary (now st : Int) (reg : Registry) (pid : String)
    (hpid : pid ≠ "") (r : PeerRecord)
    (hfind : findPeer reg pid = some r) :
    isActive now (now - 299) = true ∧
    isActive now (now - 300) = false ∧
    (∀ last_seen : Int, isActive now last_seen = true ↔
      now - last_seen < 300) ∧
    ((lookup reg (some pid) none now).2 =
      .ok (if isActive now r.last_seen then
        [⟨r.peer_id, r.ip, r.port, r.is_public⟩] else [])) ∧
    (listActivePeers now reg =
      reg.filter fun kv => isActive now kv.2.last_seen) ∧
    ((stats reg now st).2.active_peers =
      (reg.filter fun kv => isActive now kv.2.last_seen).length) := by
  refine ⟨?_, ?_, ?_, ?_, ?_, ?_⟩
  · simp [isActive]
  · simp [isActive]
  · intro last_seen
    simp [isActive]
  · by_cases h : now - r.last_seen < 300 <;>
      simp [lookup, parseCount, strTruthy_some_ne pid hpid, hfind,
        isActive, h]
  · exact listActivePeers_eq_filter now reg
  · rfl

/-- Witness for C2, at a registry with one peer seen at time 0 and the
check made at time 299. -/
theorem staleness_boundary_witness :
    isActive 299 (299 - 299) = true ∧
    isActive 299 (299 - 300) = false ∧
    (∀ last_seen : Int, isActive 299 last_seen = true ↔
      299 - last_seen < 300) ∧
    ((lookup [("a", ⟨"a", "1.1.1.1", 80, true, 0, 0⟩)] (some "a") none
        299).2 =
      .ok (if isActive 299 (0 : Int) then
        [⟨"a", "1.1.1.1", 80, true⟩] else [])) ∧
    (listActivePeers 299 [("a", ⟨"a", "1.1.1.1", 80, true, 0, 0⟩)] =
      ([("a", ⟨"a", "1.1.1.1", 80, true, 0, 0⟩)] : Registry).filter
        fun kv => isActive 299 kv.2.last_seen) ∧
    ((stats [("a", ⟨"a", "1.1.1.1", 80, true, 0, 0⟩)] 299
        7).2.active_peers =
      (([("a", ⟨"a", "1.1.1.1", 80, true, 0, 0⟩)] : Registry).filter
        fun kv => isActive 299 kv.2.last_seen).length) :=
  staleness_boundary 299 7 [("a", ⟨"a", "1.1.1.1", 80, true, 0, 0⟩)]
    "a" (by decide) ⟨"a", "1.1.1.1", 80, true, 0, 0⟩ (by decide)

/-- C3: the full listing computes a single timestamp `now`, evicts
exactly the records with `now - last_seen >= 300`, and returns the
remaining active records, their count and `now`; the registry afterwards
is precisely the returned set. -/
theorem listActive_spec (reg : Registry) (now : Int) :
    (listActive reg now).1 =
      reg.filter (fun kv => isActive now kv.2.last_seen) ∧
    (listActive reg now).2.peersOut = (listActive reg now).1 ∧
    (listActive reg now).2.count = (listActive reg now).1.length ∧
    (listActive reg now).2.timestamp = now ∧
    (∀ kv ∈ reg,
      (kv ∈ (listActive reg now).1 ↔ now - kv.2.last_seen < 300)) ∧
    (∀ kv ∈ (listActive reg now).1, kv ∈ reg) := by
  refine ⟨?_, rfl, rfl, rfl, ?_, ?_⟩
  · exact listActivePeers_eq_filter now reg
  · intro kv hkv
    simp [listActive, listActivePeers_eq_filter, List.mem_filter, hkv,
      isActive]
  · intro kv hkv
    simp only [listActive, listActivePeers_eq_filter,
      List.mem_filter] at hkv
    exact hkv.1

/-- Witness for C3, on a two-peer registry where one peer is stale. -/
theorem listActive_spec_witness :
    ((listActive
        [("a", ⟨"a", "1.1.1.1", 80, true, 0, 0⟩),
         ("b", ⟨"b", "2.2.2.2", 81, false, 250, 0⟩)] 300).1 =
      ([("a", ⟨"a", "1.1.1.1", 80, true, 0, 0⟩),
        ("b", ⟨"b", "2.2.2.2", 81, false, 250, 0⟩)] : Registry).filter
        (fun kv => isActive 300 kv.2.last_seen)) ∧
    ((("b", (⟨"b", "2.2.2.2", 81, false, 250, 0⟩ : PeerRecord)) ∈
        (listActive
          [("a", ⟨"a", "1.1.1.1", 80, true, 0, 0⟩),
           ("b", ⟨"b", "2.2.2.2", 81, false, 250, 0⟩)] 300).1) ↔
      ((300 : Int) -
        (⟨"b", "2.2.2.2", 81, false, 250, 0⟩ : PeerRecord).last_seen <
        300)) :=
  ⟨(listActive_spec
      [("a", ⟨"a", "1.1.1.1", 80, true, 0, 0⟩),
       ("b", ⟨"b", "2.2.2.2", 81, false, 250, 0⟩)] 300).1,
   (listActive_spec
      [("a", ⟨"a", "1.1.1.1", 80, true, 0, 0⟩),
       ("b", ⟨"b", "2.2.2.2", 81, false, 250, 0⟩)] 300).2.2.2.2.1
     ("b", ⟨"b", "2.2.2.2", 81, false, 250, 0⟩) (by decide)⟩

/-- C5: `stats` reports `total` over all stored records, `active` by the
strict 300-second window, `public` among the active records,
`private = active - public` (hence `public + private = active` and
`public <= active <= total`), and `uptime_seconds = now - start`. -/
theorem stats_spec (reg : Registry) (now st : Int) :
    (stats reg now st).2.total_peers = reg.length ∧
    (stats reg now st).2.active_peers =
      (reg.filter fun kv => isActive now kv.2.last_seen).length ∧
    (stats reg now st).2.public_peers =
      ((reg.filter fun kv => isActive now kv.2.last_seen).filter
        fun kv => kv.2.is_public).length ∧
    (stats reg now st).2.private_peers =
      (stats reg now st).2.active_peers -
        (stats reg now st).2.public_peers ∧
    (stats reg now st).2.public_peers +
        (stats reg now st).2.private_peers =
      (stats reg now st).2.active_peers ∧
    (stats reg now st).2.public_peers ≤
      (stats reg now st).2.active_peers ∧
    (stats reg now st).2.active_peers ≤
      (stats reg now st).2.total_peers ∧
    (stats reg now st).2.uptime_seconds = now - st := by
  have hpub : ((reg.filter fun kv => now - kv.2.last_seen < 300).filter
      fun kv => kv.2.is_public).length ≤
      (reg.filter fun kv => now - kv.2.last_seen < 300).length :=
    List.length_filter_le _ _
  have hact : (reg.filter fun kv =>
      now - kv.2.last_seen < 300).length ≤ reg.length :=
    List.length_filter_le _ _
  refine ⟨rfl, rfl, rfl, rfl, ?_, hpub, hact, rfl⟩
  exact Nat.add_sub_cancel' hpub

theorem strTruthy_falsy (s : Option String)
    (h : s = none ∨ s = some "") : strTruthy s = false := by
  rcases h with h | h
  · simp [h, strTruthy]
  · subst h
    rfl

/-- C6: a registration whose `peer_id` is missing or empty, or whose
`ip` and `ip_address` are both missing or empty, fails with the
validation error and leaves the registry exactly as it was. -/
theorem register_validation (reg : Registry) (d : RegisterInput)
    (now : Int)
    (h : (d.peer_id = none ∨ d.peer_id = some "") ∨
      ((d.ip = none ∨ d.ip = some "") ∧
       (d.ip_address = none ∨ d.ip_address = some ""))) :
    register reg d now = (reg, .validationError) := by
  rcases h with h | ⟨hip, hipa⟩
  · simp [register, strTruthy_falsy d.peer_id h]
  · have : resolveIp d = d.ip_address := by
      simp [resolveIp, strTruthy_falsy d.ip hip]
    simp [register, this, strTruthy_falsy d.ip_address hipa]

/-- Witness for C6: empty `peer_id` is rejected without mutation. -/
theorem register_validation_witness :
    register [("a", ⟨"a", "1.1.1.1", 80, false, 0, 5⟩)]
        ⟨some "", some "2.2.2.2", none, none, none⟩ 7 =
      ([("a", ⟨"a", "1.1.1.1", 80, false, 0, 5⟩)], .validationError) :=
  register_validation [("a", ⟨"a", "1.1.1.1", 80, false, 0, 5⟩)]
    ⟨some "", some "2.2.2.2", none, none, none⟩ 7 (Or.inl (Or.inr rfl))

/-- C7: with a parseable `count`, lookup returns exactly the record for
the requested id when present and active and nothing otherwise, hence at
most one entry; the `count` value never changes the result. -/
theorem lookup_spec (reg : Registry) (pid : String) (hpid : pid ≠ "")
    (now : Int) (c : Option String) (n : Int)
    (hc : parseCount c = some n) :
    lookup reg (some pid) c now = (reg,
      .ok (match findPeer reg pid with
        | some r =>
            if now - r.last_seen < 300 then
              [⟨r.peer_id, r.ip, r.port, r.is_public⟩] else []
        | none => [])) ∧
    (match findPeer reg pid with
      | some r =>
          if now - r.last_seen < 300 then
            ([⟨r.peer_id, r.ip, r.port, r.is_public⟩] :
              List LookupEntry)
          else []
      | none => []).length ≤ 1 ∧
    (∀ cB : Option String, ∀ nB : Int, parseCount cB = some nB →
      lookup reg (some pid) cB now = lookup reg (some pid) c now) := by
  refine ⟨?_, ?_, ?_⟩
  · simp [lookup, hc, strTruthy_some_ne pid hpid]
  · rcases hf : findPeer reg pid with _ | r
    · simp [hf]
    · by_cases h : now - r.last_seen < 300 <;> simp [hf, h]
  · intro cB nB hcB
    simp [lookup, hc, hcB]

/-- Witness for C7: counts 5 and 10 give the same single-entry result. -/
theorem lookup_spec_witness :
    lookup [("a", ⟨"a", "1.1.1.1", 80, true, 0, 5⟩)] (some "a")
        (some "5") 100 = ([("a", ⟨"a", "1.1.1.1", 80, true, 0, 5⟩)],
      .ok [⟨"a", "1.1.1.1", 80, true⟩]) ∧
    lookup [("a", ⟨"a", "1.1.1.1", 80, true, 0, 5⟩)] (some "a")
        (some "10") 100 =
      lookup [("a", ⟨"a", "1.1.1.1", 80, true, 0, 5⟩)] (some "a")
        (some "5") 100 := by
  have h := lookup_spec [("a", ⟨"a", "1.1.1.1", 80, true, 0, 5⟩)]
    "a" (by decide) 100 (some "5") 5 (by decide)
  exact ⟨h.1.trans (by decide),
    h.2.2 (some "10") 10 (by decide)⟩

/-- C8: the address may arrive under `ip` or `ip_address`, `ip` wins
when truthy and `ip_address` is used when `ip` is absent; both forms
register identically; a missing `port` is stored as 8443 and a missing
`is_public` as `false`. -/
theorem register_dual_key_defaults (reg : Registry) (now : Int)
    (pid a : String) (hpid : pid ≠ "") (ha : a ≠ "")
    (ipa : Option String) (p : Option Int) (b : Option Bool) :
    resolveIp ⟨some pid, some a, ipa, p, b⟩ = some a ∧
    resolveIp ⟨some pid, none, ipa, p, b⟩ = ipa ∧
    register reg ⟨some pid, some a, none, p, b⟩ now =
      register reg ⟨some pid, none, some a, p, b⟩ now ∧
    ((findPeer
        (register reg ⟨some pid, some a, none, none, none⟩ now).1
        pid).map fun r => (r.ip, r.port, r.is_public)) =
      some (a, 8443, false) := by
  have haE := isEmpty_false_of_ne a ha
  have hpE := isEmpty_false_of_ne pid hpid
  refine ⟨?_, ?_, ?_, ?_⟩
  · simp [resolveIp, strTruthy, haE]
  · simp [resolveIp, strTruthy]
  · simp [register, resolveIp, strTruthy, haE]
  · simp [register, resolveIp, strTruthy, haE, hpE,
      findPeer_setPeer_self]

/-- Witness for C8, registering into the empty registry. -/
theorem register_dual_key_defaults_witness :
    resolveIp ⟨some "a", some "9.9.9.9", some "8.8.8.8", none,
      none⟩ = some "9.9.9.9" ∧
    resolveIp ⟨some "a", none, some "8.8.8.8", none, none⟩ =
      some "8.8.8.8" ∧
    register [] ⟨some "a", some "9.9.9.9", none, none, none⟩ 3 =
      register [] ⟨some "a", none, some "9.9.9.9", none, none⟩ 3 ∧
    ((findPeer
        (register [] ⟨some "a", some "9.9.9.9", none, none, none⟩
          3).1 "a").map fun r => (r.ip, r.port, r.is_public)) =
      some ("9.9.9.9", 8443, false) :=
  register_dual_key_defaults [] 3 "a" "9.9.9.9" (by decide) (by decide)
    (some "8.8.8.8") none none

theorem pyInt_strips_whitespace : pyInt " 5" = some 5 := by decide

theorem pyInt_groups_underscores : pyInt "1_0" = some 10 := by decide

/-- C10: an ASCII `count` query value that `int()` cannot parse makes
lookup fail with the server error, returning no peer sequence and
leaving the registry unchanged.  On ASCII strings `pyInt` agrees with
`int()` exactly (whitespace stripping, signs, underscore grouping), so
`pyInt s = none` is the parse-failure condition of the handler. -/
theorem lookup_bad_count (reg : Registry) (pidP : Option String)
    (now : Int) (s : String)
    (_hascii : s.data.all (fun c => c.toNat < 128) = true)
    (hs : pyInt s = none) :
    lookup reg pidP (some s) now = (reg, .serverError) := by
  simp [lookup, parseCount, hs]

/-- Witness for C10: `count=abc` yields the server error. -/
theorem lookup_bad_count_witness :
    lookup [("a", ⟨"a", "1.1.1.1", 80, true, 0, 5⟩)] (some "a")
        (some "abc") 100 =
      ([("a", ⟨"a", "1.1.1.1", 80, true, 0, 5⟩)], .serverError) :=
  lookup_bad_count [("a", ⟨"a", "1.1.1.1", 80, true, 0, 5⟩)]
    (some "a") 100 "abc" (by decide) (by decide)

theorem findPeer_none_of_not_mem_keys (reg : Registry) (pid : String)
    (h : pid ∉ reg.map Prod.fst) : findPeer reg pid = none := by
  induction reg with
  | nil => rfl
  | cons kv rest ih =>
    obtain ⟨k, v⟩ := kv
    simp only [List.map_cons, List.mem_cons] at h
    push_neg at h
    simp [findPeer, Ne.symm h.1, ih h.2]

theorem findPeer_filter_none (reg : Registry) (pid : String)
    (P : String × PeerRecord → Bool) (h : findPeer reg pid = none) :
    findPeer (reg.filter P) pid = none := by
  induction reg with
  | nil => rfl
  | cons kv rest ih =>
    obtain ⟨k, v⟩ := kv
    by_cases hk : k = pid
    · simp [findPeer, hk] at h
    · rw [findPeer, if_neg hk] at h
      by_cases hp : P (k, v)
      · rw [List.filter_cons_of_pos hp, findPeer, if_neg hk]
        exact ih h
      · rw [List.filter_cons_of_neg (by simpa using hp)]
        exact ih h

theorem findPeer_filter_stale (reg : Registry) (pid : String)
    (r : PeerRecord) (P : String × PeerRecord → Bool)
    (hnodup : uniqueKeys reg) (hfind : findPeer reg pid = some r)
    (hP : P (pid, r) = false) :
    findPeer (reg.filter P) pid = none := by
  induction reg with
  | nil => simp [findPeer] at hfind
  | cons kv rest ih =>
    obtain ⟨k, v⟩ := kv
    rw [uniqueKeys, List.map_cons, List.nodup_cons] at hnodup
    by_cases hk : k = pid
    · subst hk
      rw [findPeer, if_pos rfl] at hfind
      obtain rfl : v = r := by injection hfind
      have hrest : findPeer rest k = none :=
        findPeer_none_of_not_mem_keys rest k hnodup.1
      rw [List.filter_cons_of_neg (by simpa using hP)]
      exact findPeer_filter_none rest k P hrest
    · rw [findPeer, if_neg hk] at hfind
      by_cases hp : P (k, v)
      · rw [List.filter_cons_of_pos hp, findPeer, if_neg hk]
        exact ih hnodup.2 hfind
      · rw [List.filter_cons_of_neg (by simpa using hp)]
        exact ih hnodup.2 hfind

theorem lookup_fst (reg : Registry) (pidP cP : Option String)
    (now : Int) : (lookup reg pidP cP now).1 = reg := by
  rcases hc : parseCount cP with _ | n
  · simp [lookup, hc]
  · by_cases h : strTruthy pidP <;> simp [lookup, hc, h]

/-- C4: `lookup` and `stats` never evict: a stale peer is invisible to
lookup yet still counted in `stats.total_peers`, for any number of such
calls, until a full listing runs while it is stale; that listing removes
it from the registry and every later lookup misses it. -/
theorem lookup_stats_no_eviction (reg : Registry)
    (pidP cP : Option String) (now nowL now2 st : Int) (pid : String)
    (hpid : pid ≠ "") (r : PeerRecord)
    (hfind : findPeer reg pid = some r) (hnodup : uniqueKeys reg)
    (hstale : ¬ now - r.last_seen < 300)
    (hstaleL : ¬ nowL - r.last_seen < 300) :
    (lookup reg pidP cP now).1 = reg ∧
    (stats reg now st).1 = reg ∧
    (stats reg now st).2.total_peers = reg.length ∧
    (lookup reg (some pid) none now).2 = .ok [] ∧
    findPeer (listActive reg nowL).1 pid = none ∧
    (lookup (listActive reg nowL).1 (some pid) none now2).2 =
      .ok [] := by
  have hgone : findPeer (listActive reg nowL).1 pid = none := by
    have h1 : (listActive reg nowL).1 =
        reg.filter fun kv => isActive nowL kv.2.last_seen :=
      listActivePeers_eq_filter nowL reg
    rw [h1]
    exact findPeer_filter_stale reg pid r _ hnodup hfind
      (by simp [isActive, hstaleL])
  refine ⟨lookup_fst reg pidP cP now, rfl, rfl, ?_, hgone, ?_⟩
  · simp [lookup, parseCount, strTruthy_some_ne pid hpid, hfind, hstale]
  · simp [lookup, parseCount, strTruthy_some_ne pid hpid, hgone]

/-- Witness for C4: a peer last seen at time 0, queried and listed at
time 400, looked up again at time 401. -/
theorem lookup_stats_no_eviction_witness :
    (lookup [("a", ⟨"a", "1.1.1.1", 80, true, 0, 0⟩)] (some "a")
        (some "10") 400).1 = [("a", ⟨"a", "1.1.1.1", 80, true, 0, 0⟩)] ∧
    (stats [("a", ⟨"a", "1.1.1.1", 80, true, 0, 0⟩)] 400 0).1 =
      [("a", ⟨"a", "1.1.1.1", 80, true, 0, 0⟩)] ∧
    (stats [("a", ⟨"a", "1.1.1.1", 80, true, 0, 0⟩)] 400
        0).2.total_peers =
      ([("a", ⟨"a", "1.1.1.1", 80, true, 0, 0⟩)] : Registry).length ∧
    (lookup [("a", ⟨"a", "1.1.1.1", 80, true, 0, 0⟩)] (some "a") none
        400).2 = .ok [] ∧
    findPeer
      (listActive [("a", ⟨"a", "1.1.1.1", 80, true, 0, 0⟩)] 400).1
      "a" = none ∧
    (lookup (listActive [("a", ⟨"a", "1.1.1.1", 80, true, 0, 0⟩)]
        400).1 (some "a") none 401).2 = .ok [] :=
  lookup_stats_no_eviction [("a", ⟨"a", "1.1.1.1", 80, true, 0, 0⟩)]
    (some "a") (some "10") 400 400 401 0 "a" (by decide)
    ⟨"a", "1.1.1.1", 80, true, 0, 0⟩ (by decide) (by simp [uniqueKeys])
    (by decide) (by decide)

end ShadowMesh
